import Mathlib

/-!
Shallow embedding of the device lifecycle orchestrator of
`src/legacy/app/actions/deviceActions.js`.

External collaborators (the `nrf-device-lib-js` enumeration provider, the
`prepareDevice` setup procedure, the configured `releaseCurrentDevice`
step) are modelled by outcome parameters: each call site receives the
outcome the external call would produce.  JavaScript exceptions are
modelled with `Except String` (the error message); redux `dispatch` of a
plain action object and `logger.error` calls are recorded in an event
trace.  `camelcaseKeys` is the identity on the modelled records, whose
fields are already camel-cased.
-/

namespace DeviceActions

/-- A serial port entry of a device, as far as the orchestrator looks at it. -/
structure SerialPort where
  comName : String
deriving DecidableEq, Repr

/-- The jlink capability record of a device. -/
structure Jlink where
  boardVersion : String
deriving DecidableEq, Repr

/-- A raw device as returned by the enumeration provider. -/
structure RawDevice where
  serialNumber : String
  serialPorts : Option (List SerialPort)
  jlink : Option Jlink
deriving DecidableEq, Repr

/-- The wrapped device produced by `wrapDevice`. -/
structure Device where
  serialNumber : String
  serialPorts : Option (List SerialPort)
  jlink : Option Jlink
  boardVersion : Option String
  serialport : Option SerialPort
deriving DecidableEq, Repr

/-- `wrapDevice`: camel-cases the raw record (identity here) and adds the
derived `boardVersion` and `serialport` fields.  In JavaScript an empty
`serialPorts` array is truthy, so `serialport` is the head of the array
when the array is present, and absent otherwise. -/
def wrapDevice (r : RawDevice) : Device :=
  { serialNumber := r.serialNumber
    serialPorts := r.serialPorts
    jlink := r.jlink
    boardVersion := r.jlink.map Jlink.boardVersion
    serialport := r.serialPorts.bind List.head? }

/-- `wrapDevices`: maps `wrapDevice` over the enumeration result. -/
def wrapDevices (rs : List RawDevice) : List Device :=
  rs.map wrapDevice

/-- A user input value as it may arrive from the UI layer
(`Boolean|String`, possibly absent). -/
inductive InputValue
  | bool (b : Bool)
  | str (s : String)
  | undef
deriving DecidableEq, Repr

/-- JavaScript truthiness of the modelled input values. -/
def truthy : InputValue → Bool
  | .bool b => b
  | .str s => !(s == "")
  | .undef => false

/-- The redux actions dispatched by `deviceActions.js`. -/
inductive Action
  | deviceSelected (d : Device)
  | deviceDeselected
  | deviceSetupComplete (d : Device)
  | deviceSetupError (d : Device) (errorMessage : String)
  | deviceSetupInputRequired (message : String) (choices : Option (List String))
  | deviceSetupInputReceived (input : InputValue)
  | devicesDetected (ds : List Device)
deriving DecidableEq, Repr

/-- Observable events of a run: a dispatched plain action, a
`logger.error` call, or the dispatch of the `stopWatchingDevices` /
`startWatchingDevices` operations.  The `startWatchingDevices` thunk is
dispatched without being awaited, so only the invocation itself belongs
to the trace of the enclosing call; its own dispatches are modelled by
`startWatchingDevices` separately. -/
inductive Event
  | dispatch (a : Action)
  | logError (message : String)
  | stopWatchCall
  | startWatchCall
deriving DecidableEq, Repr

/-- True when the event is the dispatch of a plain action, i.e. an emitted
notification. -/
def Event.isDispatch : Event → Bool
  | .dispatch _ => true
  | _ => false

/-- State of the external hotplug facility: the next fresh task id and the
list of task ids with a live subscription. -/
structure LibState where
  nextId : Nat
  active : List Nat
deriving DecidableEq, Repr

/-- `nrfDeviceLib.startHotplugEvents`: registers a new hotplug
subscription and returns its task id. -/
def startHotplugEvents (lib : LibState) : Nat × LibState :=
  (lib.nextId, { nextId := lib.nextId + 1, active := lib.active ++ [lib.nextId] })

/-- `nrfDeviceLib.stopHotplugEvents`: removes the subscription with the
given task id; a missing or unknown task id makes the library call throw. -/
def stopHotplugEvents (lib : LibState) (taskId : Option Nat) : Except String LibState :=
  match taskId with
  | some i =>
      if lib.active.contains i then
        .ok { lib with active := lib.active.erase i }
      else
        .error "invalid task id"
  | none => .error "invalid task id"

/-- The module-level watcher state: the hotplug facility and the
`hotplugTaskId` module variable. -/
structure WatcherState where
  lib : LibState
  hotplugTaskId : Option Nat
deriving DecidableEq, Repr

/-- The body of `updateDeviceList` after the enumeration resolved:
wraps the devices, dispatches a deselection when a selected serial number
is set but absent from the result, then dispatches `DEVICES_DETECTED`. -/
def updateDeviceListRun (selectedSerialNumber : Option String)
    (raw : List RawDevice) : List Action :=
  let devices := wrapDevices raw
  match selectedSerialNumber with
  | some s =>
      if ((devices.find? fun d => d.serialNumber == s).isNone) then
        [Action.deviceDeselected, Action.devicesDetected devices]
      else
        [Action.devicesDetected devices]
  | none => [Action.devicesDetected devices]

/-- `startWatchingDevices` (the thunk body): one enumeration pass through
`updateDeviceList`, then registration of a new hotplug subscription whose
task id overwrites `hotplugTaskId`; an enumeration error is caught and
logged.  `selectedSerialNumber` is what `getState` yields during the pass
and `enumOutcome` is the outcome of the `enumerate` call. -/
def startWatchingDevices (selectedSerialNumber : Option String)
    (enumOutcome : Except String (List RawDevice))
    (w : WatcherState) : WatcherState × List Event :=
  match enumOutcome with
  | .error e => (w, [Event.logError ("Error while probing devices: " ++ e)])
  | .ok raw =>
      let evs := (updateDeviceListRun selectedSerialNumber raw).map Event.dispatch
      let p := startHotplugEvents w.lib
      ({ lib := p.2, hotplugTaskId := some p.1 }, evs)

/-- `stopWatchingDevices`: when the device lib context exists, stops the
subscription recorded in `hotplugTaskId`, catching and logging any error
of the library call.  The result is `Except` so that the absence of an
escaping exception is a provable property rather than a typing artifact. -/
def stopWatchingDevices (ctxOk : Bool) (w : WatcherState) :
    Except String (WatcherState × List Event) :=
  if ctxOk then
    match stopHotplugEvents w.lib w.hotplugTaskId with
    | .ok lib2 => .ok ({ w with lib := lib2 }, [])
    | .error e =>
        .ok (w, [Event.logError ("Error while stop watching devices: " ++ e)])
  else
    .ok (w, [])

/-- The `config.deviceSetup` object supplied by the app.  The
`allowCustomDevice` field is `none` when the key is absent, so that the
spread over the default `allowCustomDevice: false` can be modelled. -/
structure DeviceSetupCfg where
  allowCustomDevice : Option Bool
deriving DecidableEq, Repr

/-- The effective `allowCustomDevice` after
`\x7b allowCustomDevice: false, ...config.deviceSetup \x7d`. -/
def effectiveAllowCustomDevice (c : DeviceSetupCfg) : Bool :=
  c.allowCustomDevice.getD false

/-- The app configuration as read by `selectAndSetupDevice`.
`releaseCurrentDevice` is `none` when the app configures no release step,
and otherwise carries the outcome its invocation would produce. -/
structure AppConfig where
  deviceSetup : Option DeviceSetupCfg
  releaseCurrentDevice : Option (Except String Unit)
deriving Repr

/-- The error message the awaited `releaseCurrentDevice` step rejects
with, when the app configured one and it throws. -/
def releaseThrows (c : AppConfig) : Option String :=
  match c.releaseCurrentDevice with
  | some (.error e) => some e
  | _ => none

/-- Result of running the async thunk of `selectAndSetupDevice`: the
watcher state, the trace of the call up to the point where its promise
settles, and the rejection message when the thunk rejects.  Side effects
performed before a rejection are kept in the trace. -/
structure RunResult where
  w : WatcherState
  events : List Event
  err : Option String
deriving DecidableEq, Repr

/-- `selectAndSetupDevice` (the thunk body).  Dispatches
`DEVICE_SELECTED`; when a setup procedure is configured, synchronously
runs `stopWatchingDevices`, awaits the optional release step (outside any
try block, so its rejection propagates), then awaits `prepareDevice`
(whose outcome is the parameter `prepareOutcome`); on success it
dispatches `startWatchingDevices` and `DEVICE_SETUP_COMPLETE`, on failure
it dispatches `DEVICE_SETUP_ERROR`, conditionally logs and deselects, and
dispatches `startWatchingDevices`. -/
def selectAndSetupDevice (device : Device) (config : AppConfig)
    (prepareOutcome : Except String Device) (ctxOk : Bool)
    (w : WatcherState) : RunResult :=
  let evs0 := [Event.dispatch (Action.deviceSelected device)]
  match config.deviceSetup with
  | none => ⟨w, evs0, none⟩
  | some setupCfg =>
      match stopWatchingDevices ctxOk w with
      | .error e => ⟨w, evs0 ++ [Event.stopWatchCall], some e⟩
      | .ok (w1, sevs) =>
          let evs1 := evs0 ++ [Event.stopWatchCall] ++ sevs
          match config.releaseCurrentDevice with
          | some (.error e) => ⟨w1, evs1, some e⟩
          | _ =>
              let allowCustom := effectiveAllowCustomDevice setupCfg
              match prepareOutcome with
              | .ok preparedDevice =>
                  ⟨w1, evs1 ++ [Event.startWatchCall,
                      Event.dispatch (Action.deviceSetupComplete preparedDevice)],
                    none⟩
              | .error e =>
                  ⟨w1, evs1
                      ++ [Event.dispatch (Action.deviceSetupError device e)]
                      ++ (if allowCustom then [] else
                          [Event.logError ("Error while setting up device "
                              ++ device.serialNumber ++ ": " ++ e),
                            Event.dispatch Action.deviceDeselected])
                      ++ [Event.startWatchCall],
                    none⟩

/-- Settlement of the promise returned by `getDeviceSetupUserInput`. -/
inductive SettleOutcome
  | resolvedBool (b : Bool)
  | resolvedValue (v : InputValue)
  | rejectedCancelled
deriving DecidableEq, Repr

/-- The callback closure stored in `deviceSetupCallback` by
`getDeviceSetupUserInput`, applied to the input the user provided: with
no choices it resolves with the truthiness of the input; with choices it
resolves with a truthy input and rejects with `Cancelled by user.`
otherwise. -/
def deviceSetupCallbackRun (choices : Option (List String))
    (choice : InputValue) : SettleOutcome :=
  match choices with
  | none => .resolvedBool (truthy choice)
  | some _ => if truthy choice then .resolvedValue choice else .rejectedCancelled

/-- The module-level single-slot input channel: the stored callback is
determined by the `choices` captured by `getDeviceSetupUserInput`. -/
structure ChannelState where
  deviceSetupCallback : Option (Option (List String))
deriving DecidableEq, Repr

/-- `getDeviceSetupUserInput dispatch (message, choices)`: overwrites the
callback slot and dispatches `DEVICE_SETUP_INPUT_REQUIRED`. -/
def getDeviceSetupUserInput (message : String) (choices : Option (List String))
    (_st : ChannelState) : ChannelState × List Event :=
  ((⟨some choices⟩ : ChannelState),
    [Event.dispatch (Action.deviceSetupInputRequired message choices)])

/-- `deviceSetupInputReceived` (the thunk body): unconditionally
dispatches `DEVICE_SETUP_INPUT_RECEIVED`; when a callback is pending it
invokes it and clears the slot, returning the settlement; otherwise it
logs an error. -/
def deviceSetupInputReceived (input : InputValue) (st : ChannelState) :
    ChannelState × List Event × Option SettleOutcome :=
  let evs := [Event.dispatch (Action.deviceSetupInputReceived input)]
  match st.deviceSetupCallback with
  | some choices =>
      ((⟨none⟩ : ChannelState), evs, some (deviceSetupCallbackRun choices input))
  | none =>
      (st, evs ++ [Event.logError "Received device setup input, but no callback exists."],
        none)

/-- True when the event dispatches a `DEVICE_SETUP_ERROR` action. -/
def Event.isSetupErrorDispatch : Event → Bool
  | .dispatch (.deviceSetupError _ _) => true
  | _ => false

/-- A raw device with serial number `A`. -/
def rawA : RawDevice := ⟨"A", none, none⟩

/-- A raw device with serial number `B`. -/
def rawB : RawDevice := ⟨"B", none, none⟩

/-- The wrapped device with serial number `A`. -/
def deviceA : Device := wrapDevice rawA

/-- The watcher state at module load: no subscription yet. -/
def w0 : WatcherState := ⟨⟨0, []⟩, none⟩

/-- A configuration with a setup procedure and a release step that
throws. -/
def cfgRelThrow : AppConfig := ⟨some ⟨none⟩, some (.error "release failed")⟩

/-- A configuration with a setup procedure, no release step, and the
`allowCustomDevice` key absent. -/
def cfgSetupOnly : AppConfig := ⟨some ⟨none⟩, none⟩

/-- A configuration with no setup procedure. -/
def cfgNoSetup : AppConfig := ⟨none, none⟩

/-- The run of `selectAndSetupDevice` in which the release step throws. -/
def releaseThrowRun : RunResult :=
  selectAndSetupDevice deviceA cfgRelThrow (.ok deviceA) true w0

/-- The watcher state after two consecutive `startWatchingDevices` calls
with successful empty enumerations, starting from the initial state. -/
def startTwiceState : WatcherState :=
  (startWatchingDevices none (.ok []) (startWatchingDevices none (.ok []) w0).1).1

/-- The channel state after a confirmation request (no choices). -/
def pendingConfirm : ChannelState :=
  (getDeviceSetupUserInput "Erase device?" none ⟨none⟩).1

/-- `stopWatchingDevices` always catches the library error: it returns
`ok` and emits only log events. -/
theorem stopWatchingDevices_ok_logs (ctxOk : Bool) (w : WatcherState) :
    ∃ w1 evs, stopWatchingDevices ctxOk w = .ok (w1, evs) ∧
      ∀ ev ∈ evs, ∃ m, ev = Event.logError m := by
  cases ctxOk with
  | false => exact ⟨w, [], rfl, by simp⟩
  | true =>
      unfold stopWatchingDevices
      cases h : stopHotplugEvents w.lib w.hotplugTaskId with
      | ok lib2 => exact ⟨{ w with lib := lib2 }, [], by simp [h], by simp⟩
      | error e =>
          refine ⟨w, [Event.logError ("Error while stop watching devices: " ++ e)],
            by simp [h], ?_⟩
          intro ev hev
          simp at hev
          exact ⟨_, hev⟩

/-- C4: for every enumeration result applied while watching, when a
serial number is selected and absent from the wrapped result the
deselection action is dispatched strictly before the device list action;
when no serial number is selected, or the selected one is present, only
the device list action is dispatched. -/
theorem updateDeviceList_deselect_before_list (selected : Option String)
    (raw : List RawDevice) :
    (selected = none → updateDeviceListRun selected raw
        = [Action.devicesDetected (wrapDevices raw)]) ∧
    (∀ s, selected = some s →
      ((((wrapDevices raw).find? fun d => d.serialNumber == s) = none →
        updateDeviceListRun selected raw
          = [Action.deviceDeselected, Action.devicesDetected (wrapDevices raw)]) ∧
      ((((wrapDevices raw).find? fun d => d.serialNumber == s)).isSome = true →
        updateDeviceListRun selected raw
          = [Action.devicesDetected (wrapDevices raw)]))) := by
  constructor
  · rintro rfl
    rfl
  · rintro s rfl
    constructor
    · intro h
      simp [updateDeviceListRun, h]
    · intro h
      cases hf : (wrapDevices raw).find? fun d => d.serialNumber == s with
      | none =>
          rw [hf] at h
          simp at h
      | some d =>
          simp [updateDeviceListRun, hf]

/-- Witness for C4 at a concrete input: selection `A`, enumeration
containing only `B`. -/
theorem updateDeviceList_deselect_before_list_witness :
    updateDeviceListRun (some "A") [rawB]
      = [Action.deviceDeselected, Action.devicesDetected (wrapDevices [rawB])] :=
  (((updateDeviceList_deselect_before_list (some "A") [rawB]).2 "A" rfl).1) (by decide)

/-- C8: a `stopWatchingDevices` call made while no subscription is active
raises no error and dispatches no action: it returns `ok` and emits at
most log events. -/
theorem stopWatchingDevices_noop_when_not_watching (ctxOk : Bool)
    (w : WatcherState) (_hidle : w.lib.active = []) :
    ∃ w1 evs, stopWatchingDevices ctxOk w = .ok (w1, evs) ∧
      ∀ ev ∈ evs, Event.isDispatch ev = false := by
  obtain ⟨w1, evs, hok, hlog⟩ := stopWatchingDevices_ok_logs ctxOk w
  refine ⟨w1, evs, hok, ?_⟩
  intro ev hev
  obtain ⟨m, hm⟩ := hlog ev hev
  rw [hm]
  rfl

/-- Witness for C8: stopping from the initial state, where no
subscription is active. -/
theorem stopWatchingDevices_noop_witness :
    w0.lib.active = [] ∧
    ∃ w1 evs, stopWatchingDevices true w0 = .ok (w1, evs) ∧
      ∀ ev ∈ evs, Event.isDispatch ev = false :=
  ⟨rfl, stopWatchingDevices_noop_when_not_watching true w0 rfl⟩

/-- C3 counterexample: two consecutive `startWatchingDevices` calls with
no intervening stop leave two active subscriptions, not at most one. -/
theorem startWatchingDevices_twice_two_subscriptions :
    startTwiceState.lib.active = [0, 1] ∧
    ¬ startTwiceState.lib.active.length ≤ 1 := by
  decide

/-- C3 amended: `startWatchingDevices` with a successful enumeration
never tears down the previous subscription: it appends a fresh
subscription, overwrites the stored task id with the fresh id, and two
consecutive calls therefore add two active subscriptions. -/
theorem startWatchingDevices_appends_subscription (selected : Option String)
    (raw : List RawDevice) (w : WatcherState) :
    ((startWatchingDevices selected (.ok raw) w).1).lib.active
        = w.lib.active ++ [w.lib.nextId] ∧
    ((startWatchingDevices selected (.ok raw) w).1).hotplugTaskId
        = some w.lib.nextId ∧
    (((startWatchingDevices selected (.ok raw)
          ((startWatchingDevices selected (.ok raw) w).1)).1).lib.active).length
        = w.lib.active.length + 2 := by
  refine ⟨rfl, rfl, ?_⟩
  simp [startWatchingDevices, startHotplugEvents]

/-- Lists of log events contain no dispatched action. -/
theorem logs_no_dispatch {sevs : List Event}
    (hlog : ∀ ev ∈ sevs, ∃ m, ev = Event.logError m) (a : Action) :
    Event.dispatch a ∉ sevs := by
  intro hmem
  obtain ⟨m, hm⟩ := hlog _ hmem
  simp at hm

/-- Lists of log events do not contain the start invocation marker. -/
theorem logs_no_startWatch {sevs : List Event}
    (hlog : ∀ ev ∈ sevs, ∃ m, ev = Event.logError m) :
    Event.startWatchCall ∉ sevs := by
  intro hmem
  obtain ⟨m, hm⟩ := hlog _ hmem
  simp at hm

/-- A throwing release step is recorded in `releaseThrows`. -/
theorem releaseThrows_eq_some {config : AppConfig} {e : String}
    (h : releaseThrows config = some e) :
    config.releaseCurrentDevice = some (.error e) := by
  unfold releaseThrows at h
  cases hrc : config.releaseCurrentDevice with
  | none =>
      rw [hrc] at h
      simp at h
  | some r =>
      cases r with
      | ok u =>
          rw [hrc] at h
          simp at h
      | error e2 =>
          rw [hrc] at h
          simp at h
          subst h
          rfl

/-- Shape of a `selectAndSetupDevice` run whose release step throws:
the trace stops after the watcher was stopped, and the thunk rejects. -/
theorem selectAndSetup_shape_release_throw (device : Device)
    (setupCfg : DeviceSetupCfg) (config : AppConfig)
    (prepareOutcome : Except String Device) (ctxOk : Bool)
    (w w1 : WatcherState) (sevs : List Event) (e : String)
    (hds : config.deviceSetup = some setupCfg)
    (hrc : config.releaseCurrentDevice = some (.error e))
    (hstop : stopWatchingDevices ctxOk w = .ok (w1, sevs)) :
    selectAndSetupDevice device config prepareOutcome ctxOk w
      = ⟨w1, Event.dispatch (Action.deviceSelected device)
          :: Event.stopWatchCall :: sevs, some e⟩ := by
  unfold selectAndSetupDevice
  rw [hds, hstop, hrc]
  rfl

/-- Shape of a successful `selectAndSetupDevice` run with a configured
setup procedure and a non-throwing release step. -/
theorem selectAndSetup_shape_success (device prepared : Device)
    (setupCfg : DeviceSetupCfg) (config : AppConfig) (ctxOk : Bool)
    (w w1 : WatcherState) (sevs : List Event)
    (hds : config.deviceSetup = some setupCfg)
    (hrel : releaseThrows config = none)
    (hstop : stopWatchingDevices ctxOk w = .ok (w1, sevs)) :
    selectAndSetupDevice device config (.ok prepared) ctxOk w
      = ⟨w1, Event.dispatch (Action.deviceSelected device)
          :: Event.stopWatchCall
          :: (sevs ++ [Event.startWatchCall,
              Event.dispatch (Action.deviceSetupComplete prepared)]), none⟩ := by
  unfold selectAndSetupDevice
  rw [hds, hstop]
  cases hrc : config.releaseCurrentDevice with
  | none => rfl
  | some r =>
      cases r with
      | ok u => rfl
      | error e2 =>
          rw [releaseThrows, hrc] at hrel
          simp at hrel

/-- Shape of a `selectAndSetupDevice` run whose setup procedure throws,
with a configured setup procedure and a non-throwing release step. -/
theorem selectAndSetup_shape_failure (device : Device)
    (setupCfg : DeviceSetupCfg) (config : AppConfig) (ctxOk : Bool)
    (w w1 : WatcherState) (sevs : List Event) (e : String)
    (hds : config.deviceSetup = some setupCfg)
    (hrel : releaseThrows config = none)
    (hstop : stopWatchingDevices ctxOk w = .ok (w1, sevs)) :
    selectAndSetupDevice device config (.error e) ctxOk w
      = ⟨w1, Event.dispatch (Action.deviceSelected device)
          :: Event.stopWatchCall
          :: (((sevs ++ [Event.dispatch (Action.deviceSetupError device e)])
              ++ (if effectiveAllowCustomDevice setupCfg then [] else
                  [Event.logError ("Error while setting up device "
                      ++ device.serialNumber ++ ": " ++ e),
                    Event.dispatch Action.deviceDeselected]))
              ++ [Event.startWatchCall]), none⟩ := by
  unfold selectAndSetupDevice
  rw [hds, hstop]
  cases hrc : config.releaseCurrentDevice with
  | none => rfl
  | some r =>
      cases r with
      | ok u => rfl
      | error e2 =>
          rw [releaseThrows, hrc] at hrel
          simp at hrel

/-- C1 counterexample: a `selectAndSetupDevice` call with a configured
setup procedure whose release step throws stops the Hotplug Watcher but
never restarts it, and the call rejects instead of settling cleanly. -/
theorem selectAndSetup_release_throw_no_restart :
    Event.stopWatchCall ∈ releaseThrowRun.events ∧
    Event.startWatchCall ∉ releaseThrowRun.events ∧
    releaseThrowRun.err = some "release failed" := by
  decide

/-- C1 amended: with a configured setup procedure the watcher is stopped,
and it is restarted on both setup success and setup failure whenever the
release step does not throw; when the release step throws, the watcher is
left stopped (no restart) and the rejection propagates to the caller. -/
theorem selectAndSetup_restart_guarantee (device : Device)
    (setupCfg : DeviceSetupCfg) (config : AppConfig)
    (prepareOutcome : Except String Device) (ctxOk : Bool) (w : WatcherState)
    (hds : config.deviceSetup = some setupCfg) :
    Event.stopWatchCall
      ∈ (selectAndSetupDevice device config prepareOutcome ctxOk w).events ∧
    (releaseThrows config = none →
      Event.startWatchCall
        ∈ (selectAndSetupDevice device config prepareOutcome ctxOk w).events ∧
      (selectAndSetupDevice device config prepareOutcome ctxOk w).err = none) ∧
    (∀ e, releaseThrows config = some e →
      Event.startWatchCall
        ∉ (selectAndSetupDevice device config prepareOutcome ctxOk w).events ∧
      (selectAndSetupDevice device config prepareOutcome ctxOk w).err = some e) := by
  obtain ⟨w1, sevs, hstop, hlog⟩ := stopWatchingDevices_ok_logs ctxOk w
  have hnostart := logs_no_startWatch hlog
  cases hrel : releaseThrows config with
  | none =>
      cases prepareOutcome with
      | ok prepared =>
          rw [selectAndSetup_shape_success device prepared setupCfg config ctxOk
            w w1 sevs hds hrel hstop]
          refine ⟨by simp, fun _ => ⟨by simp, rfl⟩, ?_⟩
          intro e he
          simp at he
      | error e =>
          rw [selectAndSetup_shape_failure device setupCfg config ctxOk
            w w1 sevs e hds hrel hstop]
          refine ⟨by simp, fun _ => ⟨by simp, rfl⟩, ?_⟩
          intro e2 he
          simp at he
  | some e =>
      rw [selectAndSetup_shape_release_throw device setupCfg config
        prepareOutcome ctxOk w w1 sevs e hds (releaseThrows_eq_some hrel) hstop]
      refine ⟨by simp, ?_, ?_⟩
      · intro h
        simp at h
      · intro e2 he2
        rw [he2]
        constructor
        · intro hmem
          simp at hmem
          exact hnostart hmem
        · rfl

/-- Witness for C1 amended: setup configured, no release step, setup
succeeds — the restart is invoked and the call settles without error. -/
theorem selectAndSetup_restart_guarantee_witness :
    Event.startWatchCall
      ∈ (selectAndSetupDevice deviceA cfgSetupOnly (.ok deviceA) true w0).events ∧
    (selectAndSetupDevice deviceA cfgSetupOnly (.ok deviceA) true w0).err = none :=
  (selectAndSetup_restart_guarantee deviceA ⟨none⟩ cfgSetupOnly
    (.ok deviceA) true w0 rfl).2.1 rfl

/-- C2 counterexample: an error thrown by the release step is not caught:
the call rejects and no setup-error notification is dispatched. -/
theorem selectAndSetup_release_throw_propagates :
    releaseThrowRun.err = some "release failed" ∧
    releaseThrowRun.events.all (fun ev => !(Event.isSetupErrorDispatch ev)) = true := by
  decide

/-- C2 amended: an error thrown by the setup procedure is caught and
surfaced as a setup-error notification with the original device and the
error, without rejecting the call; an error thrown by the release step is
not caught: it rejects the call and no setup-error is dispatched. -/
theorem selectAndSetup_error_surfacing (device : Device)
    (setupCfg : DeviceSetupCfg) (config : AppConfig) (ctxOk : Bool)
    (w : WatcherState) (hds : config.deviceSetup = some setupCfg) :
    (∀ e, releaseThrows config = none →
      (selectAndSetupDevice device config (.error e) ctxOk w).err = none ∧
      Event.dispatch (Action.deviceSetupError device e)
        ∈ (selectAndSetupDevice device config (.error e) ctxOk w).events) ∧
    (∀ e prepareOutcome, releaseThrows config = some e →
      (selectAndSetupDevice device config prepareOutcome ctxOk w).err = some e ∧
      ∀ ev ∈ (selectAndSetupDevice device config prepareOutcome ctxOk w).events,
        Event.isSetupErrorDispatch ev = false) := by
  obtain ⟨w1, sevs, hstop, hlog⟩ := stopWatchingDevices_ok_logs ctxOk w
  constructor
  · intro e hrel
    rw [selectAndSetup_shape_failure device setupCfg config ctxOk
      w w1 sevs e hds hrel hstop]
    exact ⟨rfl, by simp⟩
  · intro e prepareOutcome hrel
    rw [selectAndSetup_shape_release_throw device setupCfg config
      prepareOutcome ctxOk w w1 sevs e hds (releaseThrows_eq_some hrel) hstop]
    refine ⟨rfl, ?_⟩
    intro ev hev
    simp at hev
    rcases hev with hev | hev | hev
    · rw [hev]
      rfl
    · rw [hev]
      rfl
    · obtain ⟨m, hm⟩ := hlog _ hev
      rw [hm]
      rfl

/-- Witness for C2 amended: setup configured, no release step, setup
procedure throws `flash failed` — the call settles without rejection and
the setup-error notification carries the device and the error. -/
theorem selectAndSetup_error_surfacing_witness :
    (selectAndSetupDevice deviceA cfgSetupOnly (.error "flash failed") true w0).err
      = none ∧
    Event.dispatch (Action.deviceSetupError deviceA "flash failed")
      ∈ (selectAndSetupDevice deviceA cfgSetupOnly (.error "flash failed") true w0).events :=
  (selectAndSetup_error_surfacing deviceA ⟨none⟩ cfgSetupOnly true w0 rfl).1
    "flash failed" rfl

/-- C7: when the setup procedure throws (and the release step does not),
the setup-error notification with the original device and error is
dispatched and the watcher restart is invoked; when the effective
`allowCustomDevice` is false the deselection is dispatched as well, and
when it is true no deselection is dispatched. -/
theorem selectAndSetup_failure_handling (device : Device)
    (setupCfg : DeviceSetupCfg) (config : AppConfig) (e : String)
    (ctxOk : Bool) (w : WatcherState)
    (hds : config.deviceSetup = some setupCfg)
    (hrel : releaseThrows config = none) :
    Event.dispatch (Action.deviceSetupError device e)
      ∈ (selectAndSetupDevice device config (.error e) ctxOk w).events ∧
    Event.startWatchCall
      ∈ (selectAndSetupDevice device config (.error e) ctxOk w).events ∧
    (effectiveAllowCustomDevice setupCfg = false →
      Event.dispatch Action.deviceDeselected
        ∈ (selectAndSetupDevice device config (.error e) ctxOk w).events) ∧
    (effectiveAllowCustomDevice setupCfg = true →
      Event.dispatch Action.deviceDeselected
        ∉ (selectAndSetupDevice device config (.error e) ctxOk w).events) := by
  obtain ⟨w1, sevs, hstop, hlog⟩ := stopWatchingDevices_ok_logs ctxOk w
  have hnodesel := logs_no_dispatch hlog Action.deviceDeselected
  rw [selectAndSetup_shape_failure device setupCfg config ctxOk
    w w1 sevs e hds hrel hstop]
  refine ⟨by simp, by simp, ?_, ?_⟩
  · intro hac
    simp [hac]
  · intro hac
    intro hmem
    simp [hac] at hmem
    exact hnodesel hmem

/-- Witness for C7: setup configured without `allowCustomDevice`, no
release step, setup throws `flash failed` — setup-error, restart and
deselection are all observed. -/
theorem selectAndSetup_failure_handling_witness :
    Event.dispatch (Action.deviceSetupError deviceA "flash failed")
      ∈ (selectAndSetupDevice deviceA cfgSetupOnly (.error "flash failed") true w0).events ∧
    Event.startWatchCall
      ∈ (selectAndSetupDevice deviceA cfgSetupOnly (.error "flash failed") true w0).events ∧
    Event.dispatch Action.deviceDeselected
      ∈ (selectAndSetupDevice deviceA cfgSetupOnly (.error "flash failed") true w0).events :=
  ⟨(selectAndSetup_failure_handling deviceA ⟨none⟩ cfgSetupOnly "flash failed"
      true w0 rfl rfl).1,
    (selectAndSetup_failure_handling deviceA ⟨none⟩ cfgSetupOnly "flash failed"
      true w0 rfl rfl).2.1,
    (selectAndSetup_failure_handling deviceA ⟨none⟩ cfgSetupOnly "flash failed"
      true w0 rfl rfl).2.2.1 rfl⟩

/-- C9: with no configured setup procedure, `selectAndSetupDevice`
dispatches exactly the device-selected notification, leaves the watcher
state untouched (no stop, no restart), and settles without error. -/
theorem selectAndSetup_no_setup_frame (device : Device) (config : AppConfig)
    (prepareOutcome : Except String Device) (ctxOk : Bool) (w : WatcherState)
    (hds : config.deviceSetup = none) :
    selectAndSetupDevice device config prepareOutcome ctxOk w
      = ⟨w, [Event.dispatch (Action.deviceSelected device)], none⟩ := by
  unfold selectAndSetupDevice
  rw [hds]

/-- Witness for C9 at a concrete input. -/
theorem selectAndSetup_no_setup_frame_witness :
    selectAndSetupDevice deviceA cfgNoSetup (.ok deviceA) true w0
      = ⟨w0, [Event.dispatch (Action.deviceSelected deviceA)], none⟩ :=
  selectAndSetup_no_setup_frame deviceA cfgNoSetup (.ok deviceA) true w0 rfl

/-- C5 counterexample: with a pending no-choices confirmation request, a
falsy input settles the pending response as resolved with `false` — a
denied confirmation — not as cancelled or rejected. -/
theorem confirm_false_resolves_not_rejects :
    (deviceSetupInputReceived (InputValue.bool false) pendingConfirm).2.2
      = some (SettleOutcome.resolvedBool false) ∧
    (deviceSetupInputReceived (InputValue.bool false) pendingConfirm).2.2
      ≠ some SettleOutcome.rejectedCancelled := by
  decide

/-- C5 amended: with a pending request made without choices, any input
settles the pending response as resolved with the truthiness of the input
(truthy as confirmed, falsy as a resolved `false`, never a rejection);
with a pending request made with choices, a falsy input settles it as
rejected-cancelled and a truthy input settles it resolved with that
value. -/
theorem provide_input_settlement (message : String) (st0 : ChannelState)
    (v : InputValue) :
    ((deviceSetupInputReceived v
        (getDeviceSetupUserInput message none st0).1).2.2
      = some (SettleOutcome.resolvedBool (truthy v))) ∧
    (∀ cs, truthy v = false →
      (deviceSetupInputReceived v
          (getDeviceSetupUserInput message (some cs) st0).1).2.2
        = some SettleOutcome.rejectedCancelled) ∧
    (∀ cs, truthy v = true →
      (deviceSetupInputReceived v
          (getDeviceSetupUserInput message (some cs) st0).1).2.2
        = some (SettleOutcome.resolvedValue v)) := by
  refine ⟨rfl, ?_, ?_⟩
  · intro cs h
    simp [deviceSetupInputReceived, getDeviceSetupUserInput,
      deviceSetupCallbackRun, h]
  · intro cs h
    simp [deviceSetupInputReceived, getDeviceSetupUserInput,
      deviceSetupCallbackRun, h]

/-- Witness for C5 amended: a pending choice request answered with the
empty string (falsy) is rejected as cancelled. -/
theorem provide_input_settlement_witness :
    truthy (InputValue.str "") = false ∧
    (deviceSetupInputReceived (InputValue.str "")
        (getDeviceSetupUserInput "Pick mode" (some ["DFU", "Normal"]) ⟨none⟩).1).2.2
      = some SettleOutcome.rejectedCancelled :=
  ⟨rfl, (provide_input_settlement "Pick mode" ⟨none⟩ (InputValue.str "")).2.1
    ["DFU", "Normal"] rfl⟩

/-- C6 counterexample: a `deviceSetupInputReceived` call with no pending
callback still dispatches the input-received action, so the call is not
free of emitted notifications. -/
theorem no_callback_still_dispatches :
    Event.dispatch (Action.deviceSetupInputReceived (InputValue.bool true))
      ∈ (deviceSetupInputReceived (InputValue.bool true) ⟨none⟩).2.1 := by
  decide

/-- C6 amended: a `deviceSetupInputReceived` call with no pending
callback leaves the callback slot empty, settles nothing, logs the
contract-violation error, and dispatches exactly the unconditional
input-received action and nothing else. -/
theorem no_callback_logs_and_keeps_state (v : InputValue) :
    deviceSetupInputReceived v ⟨none⟩
      = (⟨none⟩, [Event.dispatch (Action.deviceSetupInputReceived v),
          Event.logError "Received device setup input, but no callback exists."],
        none) :=
  rfl

/-- C10: a pending callback is invoked at most once: the first
`deviceSetupInputReceived` settles the response and clears the slot, so a
second call without a new request settles nothing and takes the
no-callback branch, logging the contract-violation error. -/
theorem callback_invoked_at_most_once (choices : Option (List String))
    (v v2 : InputValue) :
    ((deviceSetupInputReceived v ⟨some choices⟩).1 = (⟨none⟩ : ChannelState)) ∧
    ((deviceSetupInputReceived v ⟨some choices⟩).2.2
        = some (deviceSetupCallbackRun choices v)) ∧
    ((deviceSetupInputReceived v2
        (deviceSetupInputReceived v ⟨some choices⟩).1).2.2 = none) ∧
    (Event.logError "Received device setup input, but no callback exists."
        ∈ (deviceSetupInputReceived v2
            (deviceSetupInputReceived v ⟨some choices⟩).1).2.1) := by
  refine ⟨rfl, rfl, rfl, ?_⟩
  simp [deviceSetupInputReceived]

end DeviceActions
